import Mathlib

/-!
Verification of `src/us_map_led_cylinders.py` (a Blender 2.8+ scripting
program) against its natural-language specification.

The host runtime (Blender) is shallowly embedded: a `BState` records the
scene objects, the active object, the user collections and their scene links,
the material data blocks, and the image-import add-on flag.  Every function
of the source file is translated into a state transformer over `BState`.
Rational numbers stand for the Python floats (all arithmetic performed by
the program is exact on the dyadic literals it uses).

Host semantics encoded here, with the relevant Blender behaviour:
* object-adding operators (`primitive_cylinder_add`, `import_image.to_plane`)
  deselect everything, then link the new object to the scene root collection
  and leave it selected and active;
* `bpy.data.objects.new` plus `scene.collection.objects.link` (used by
  `new_text`) links the object to the root collection but neither selects it
  nor makes it active;
* `bpy.ops.object.convert(target=MESH)` converts every selected object to a
  mesh and keeps the active object unchanged;
* `bpy.ops.object.mode_set(mode=EDIT)` enters multi-object edit mode: every
  selected object whose type matches the active object (meshes here), plus
  the active object itself, is in edit mode, and the subsequent
  `mesh.select_all` + `mesh.extrude_region_move` act on all of them;
* object and collection names are assumed non-colliding (Blender would
  silently auto-suffix otherwise; the specification makes the same
  assumption), so a lookup `bpy.data.objects[name]` resolves to the object
  created under that name, which the embedding threads by its position in
  the object table.
-/

/-- A scene object (Blender `bpy.data.objects` entry) with the attributes the
program reads or writes.  `extruded` records the translation vector of the
edit-mode extrusion applied to the object, `none` when the object was never
extruded.  `body` is the glyph content for text-derived objects.  `inRoot`
records membership in the scene root collection. -/
structure Obj where
  name : String
  isMesh : Bool
  body : Option String
  selected : Bool
  location : ℚ × ℚ × ℚ
  dimensions : ℚ × ℚ × ℚ
  materials : List String
  extruded : Option (ℚ × ℚ × ℚ)
  color : ℚ × ℚ × ℚ × ℚ
  inRoot : Bool
deriving DecidableEq

/-- Shader node types used by the program. -/
inductive NodeType where
  | outputMaterial
  | emission
  | diffuseBSDF
deriving DecidableEq

/-- A node of a material node tree, with the two inputs the program sets. -/
structure MNode where
  ntype : NodeType
  name : String
  colorInput : Option (ℚ × ℚ × ℚ × ℚ)
  strengthInput : Option ℚ
deriving DecidableEq

/-- A node-tree link from an output socket to an input socket. -/
structure NLink where
  fromNode : String
  fromSocket : Nat
  toNode : String
  toSocket : Nat
deriving DecidableEq

/-- A material data block (`bpy.data.materials` entry). -/
structure Material where
  name : String
  useNodes : Bool
  nodes : List MNode
  links : List NLink
deriving DecidableEq

/-- A user collection (`bpy.data.collections` entry): its name and the names
of the objects linked into it. -/
structure Collection where
  name : String
  objects : List String
deriving DecidableEq

/-- The Blender state visible to the program: the object table (`activeObject`
is a position in it), the user collections and the list of collection names
linked as children of the scene, the material data blocks, and whether the
image-import add-on is enabled. -/
structure BState where
  objects : List Obj
  activeObject : Option Nat
  collections : List Collection
  sceneChildren : List String
  materials : List Material
  addonEnabled : Bool
deriving DecidableEq

/-- A fresh Blender session with an empty scene and the add-on disabled. -/
def initState : BState :=
  { objects := [], activeObject := none, collections := [], sceneChildren := [],
    materials := [], addonEnabled := false }

/-- Deselect an object. -/
def deselect (o : Obj) : Obj := { o with selected := false }

/-- Update the object at a given position of the object table. -/
def listUpdate (f : Obj → Obj) : Nat → List Obj → List Obj
  | _, [] => []
  | 0, o :: r => f o :: r
  | n + 1, o :: r => o :: listUpdate f n r

/-- Update the object at position `i` of the state object table. -/
def updateAt (i : Nat) (f : Obj → Obj) (s : BState) : BState :=
  { s with objects := listUpdate f i s.objects }

/-- Look a material up by name (`bpy.data.materials.get`). -/
def matByName (s : BState) (id : String) : Option Material :=
  s.materials.find? (fun m => m.name == id)

/-- Update every material data block carrying the given name (names are unique
in Blender, so this is the update through a reference to that material). -/
def updateMat (id : String) (f : Material → Material) (s : BState) : BState :=
  { s with materials := s.materials.map (fun m => if m.name == id then f m else m) }

/-- `init_blender_env` (lines 17-29): select all objects and delete them, then
remove every collection whose name does not start with `Scene`.  Deleting all
objects also empties the object lists of the surviving collections and clears
the active object.  Materials are data blocks, not scene objects, and are not
touched. -/
def init_blender_env (s : BState) : BState :=
  { s with objects := [], activeObject := none,
           collections := (s.collections.filter (fun c => c.name.startsWith "Scene")).map
             (fun c => { c with objects := [] }),
           sceneChildren := s.sceneChildren.filter (fun n => n.startsWith "Scene") }

/-- `load_us_map(max_size_dim, image_path)` (lines 32-62).  The file system and
image store are external, so the path is modelled by
`img : Option (Nat × Nat)`: `none` when `image_path.exists()` is false, and
`some (w, h)` giving the pixel size of the image when it exists.  The add-on
check-and-enable happens first, unconditionally.  On the missing-path branch
the function only prints a message (no scene mutation).  Otherwise the image
is imported as a plane (deselecting everything else, the plane selected and
active, named after the image file: the name is the `planeName` parameter),
its dimensions are set to `(max_size_dim, max_size_dim * height/width, 0)`
and its location to the origin; no deselection happens before returning.
`planeObj` is the imported plane after lines 51-60 ran on it. -/
def planeObj (max_size_dim : ℚ) (w h : Nat) (planeName : String) : Obj :=
  { name := planeName, isMesh := true, body := none, selected := true,
    location := (0, 0, 0),
    dimensions := (max_size_dim, max_size_dim * ((h : ℚ) / (w : ℚ)), 0),
    materials := [], extruded := none, color := (1, 1, 1, 1), inRoot := true }

/-- The body of `load_us_map` (see the doc comment of `planeObj` for the
line-by-line account). -/
def load_us_map (max_size_dim : ℚ) (img : Option (Nat × Nat)) (planeName : String)
    (s : BState) : BState :=
  let s1 := { s with addonEnabled := true }
  match img with
  | none => s1
  | some wh =>
      { s1 with objects := (s1.objects.map deselect) ++ [planeObj max_size_dim wh.1 wh.2 planeName],
                activeObject := some s1.objects.length }

/-- `new_material(id)` (lines 65-78): get-or-create the material named `id`,
enable node shading, and clear its node tree (nodes and links).  Enabling
`use_nodes` on a fresh material creates a default graph, which the clear
immediately empties, so in both branches the material ends with an empty
tree. -/
def clearMat (m : Material) : Material :=
  { m with useNodes := true, nodes := [], links := [] }

/-- The branch on `bpy.data.materials.get(id)`; `clearMat` is the
use-nodes-then-clear treatment of lines 72-76. -/
def new_material (id : String) (s : BState) : BState :=
  if s.materials.any (fun m => m.name == id) then
    { s with materials :=
        s.materials.map (fun m => if m.name == id then clearMat m else m) }
  else
    { s with materials :=
        s.materials ++ [{ name := id, useNodes := true, nodes := [], links := [] }] }

/-- The `ShaderNodeOutputMaterial` node, carrying its default Blender name. -/
def outputNode : MNode :=
  { ntype := NodeType.outputMaterial, name := "Material Output",
    colorInput := none, strengthInput := none }

/-- The `ShaderNodeEmission` node as `new_shader` configures it: color
`(r, g, b, 1)` and strength `intensity`. -/
def emissionNode (r g b : ℚ) (intensity : Option ℚ) : MNode :=
  { ntype := NodeType.emission, name := "Emission",
    colorInput := some (r, g, b, 1), strengthInput := intensity }

/-- The `ShaderNodeBsdfDiffuse` node as `new_shader` configures it: base
color `(r, g, b, 1)`. -/
def diffuseNode (r g b : ℚ) : MNode :=
  { ntype := NodeType.diffuseBSDF, name := "Diffuse BSDF",
    colorInput := some (r, g, b, 1), strengthInput := none }

/-- The wire from a shader node output socket 0 to the material output input
socket 0 (`links.new(shader.outputs[0], output.inputs[0])`). -/
def wireLink (shaderName : String) : NLink :=
  { fromNode := shaderName, fromSocket := 0,
    toNode := "Material Output", toSocket := 0 }

/-- `new_shader(id, node_type, r, g, b, intensity=None)` (lines 81-105).
Builds (via `new_material`) the cleared material, creates the output node,
then the shader node of the requested kind with its inputs, wires the shader
to the output, and returns the material.  An unrecognized `node_type` leaves
`shader` as `None` and raises `TypeError`: the `Except.error` value carries
the state at the moment of the raise (material present, tree cleared, output
node already created, nothing wired). -/
def new_shader (id node_type : String) (r g b : ℚ) (intensity : Option ℚ)
    (s : BState) : Except BState BState :=
  let s1 := new_material id s
  let s2 := updateMat id (fun m => { m with nodes := m.nodes ++ [outputNode] }) s1
  if node_type == "emissive" then
    let s3 := updateMat id
      (fun m => { m with nodes := m.nodes ++ [emissionNode r g b intensity] }) s2
    Except.ok (updateMat id
      (fun m => { m with links := m.links ++ [wireLink "Emission"] }) s3)
  else if node_type == "diffuse" then
    let s3 := updateMat id
      (fun m => { m with nodes := m.nodes ++ [diffuseNode r g b] }) s2
    Except.ok (updateMat id
      (fun m => { m with links := m.links ++ [wireLink "Diffuse BSDF"] }) s3)
  else
    Except.error s2

/-- The state at which a `new_shader` call hands control back, whether it
returns normally or raises. -/
def shaderCall (id node_type : String) (r g b : ℚ) (intensity : Option ℚ)
    (s : BState) : BState :=
  match new_shader id node_type r g b intensity s with
  | Except.ok t => t
  | Except.error t => t

/-- Whether an `Except` result is the error case. -/
def isError (e : Except BState BState) : Bool :=
  match e with
  | Except.error _ => true
  | Except.ok _ => false

/-- `new_text(baseid, text)` (lines 108-116): creates a font curve data block
named `baseid ++ "_curve"` holding `text` (curve data blocks have no other
observable attribute in this model), wraps it in an object named
`baseid ++ "_font"`, and links that object into the scene root collection.
The new object starts unselected and does not become active; its initial
dimensions are those of the glyph outline (not observed before being
overwritten, recorded as `(1, 1, 0)`). -/
def new_text (baseid text : String) (s : BState) : BState :=
  let font_obj : Obj :=
    { name := baseid ++ "_font", isMesh := false, body := some text,
      selected := false, location := (0, 0, 0), dimensions := (1, 1, 0),
      materials := [], extruded := none, color := (1, 1, 1, 1), inRoot := true }
  { s with objects := s.objects ++ [font_obj] }

/-- The name given to the cylinder of a marker (line 123). -/
def ledName (x y z : ℚ) : String :=
  "LED_" ++ toString x ++ "_" ++ toString y ++ "_" ++ toString z

/-- The naming root handed to `new_text` for a marker (line 125). -/
def textBase (x y z : ℚ) : String :=
  "Text_" ++ toString x ++ "_" ++ toString y ++ "_" ++ toString z

/-- The name of the label object of a marker. -/
def fontName (x y z : ℚ) : String := textBase x y z ++ "_font"

/-- The freshly added cylinder (radius 0.5, depth 0.5, so bounding dimensions
(1, 1, 0.5)) at `(x, y, z)`, still carrying the default name. -/
def cylObj (x y z : ℚ) : Obj :=
  { name := "Cylinder", isMesh := true, body := none, selected := true,
    location := (x, y, z), dimensions := (1, 1, 1/2), materials := [],
    extruded := none, color := (1, 1, 1, 1), inRoot := true }

/-- `draw_object(x, y, z, mat, label, texmat)` (lines 119-161), step by step in
source order.  Materials are passed by name (the driver hands over the name
under which `new_shader` stored them). -/
def draw_object (x y z : ℚ) (mat label texmat : String) (s : BState) : BState :=
  -- line 120: primitive_cylinder_add deselects everything, links the cylinder
  -- to the root collection, selects it and makes it active
  let ledIdx := s.objects.length
  let s := { s with objects := (s.objects.map deselect) ++ [cylObj x y z],
                    activeObject := some ledIdx }
  -- line 122: led.data.materials.append(mat)
  let s := updateAt ledIdx (fun o => { o with materials := o.materials ++ [mat] }) s
  -- line 123: led.name = LED_x_y_z
  let s := updateAt ledIdx (fun o => { o with name := ledName x y z }) s
  -- lines 125-126: text = new_text(Text_x_y_z, label)
  let fontIdx := ledIdx + 1
  let s := new_text (textBase x y z) label s
  -- line 127: text.color = (0, 0, 0, 1)
  let s := updateAt fontIdx (fun o => { o with color := (0, 0, 0, 1) }) s
  -- line 128: text.data.materials.append(texmat)
  let s := updateAt fontIdx (fun o => { o with materials := o.materials ++ [texmat] }) s
  -- line 130: bpy.data.objects[text.name].select_set(True)
  let s := updateAt fontIdx (fun o => { o with selected := true }) s
  -- line 131: object.convert(target=MESH) converts every selected object
  let s :=
    { s with objects :=
        s.objects.map (fun (o : Obj) => if o.selected then { o with isMesh := true } else o) }
  -- lines 132-133: mesh_obj = context.active_object; mesh_obj.select_set(True)
  let s := match s.activeObject with
    | some i => updateAt i (fun o => { o with selected := true }) s
    | none => s
  -- lines 134-137: mode_set(EDIT); mesh.select_all(SELECT);
  -- mesh.extrude_region_move((0, 0, 0.3)); mode_set(OBJECT).
  -- Multi-object edit mode: every selected mesh object, and the active
  -- object, is extruded
  let s :=
    { s with objects :=
        s.objects.map (fun (o : Obj) =>
          if o.selected && o.isMesh then { o with extruded := some (0, 0, 3/10) } else o) }
  let s := match s.activeObject with
    | some i => updateAt i
        (fun o => if o.isMesh then { o with extruded := some (0, 0, 3/10) } else o) s
    | none => s
  -- line 139: object.select_all(DESELECT)
  let s := { s with objects := s.objects.map deselect }
  -- lines 141-145: look the two objects up by name and select them
  let s := updateAt ledIdx (fun o => { o with selected := true }) s
  let s := updateAt fontIdx (fun o => { o with selected := true }) s
  -- lines 147-148: font_obj.dimensions and font_obj.location
  let s := updateAt fontIdx (fun o => { o with dimensions := (1/2, 1/2, 3/10) }) s
  let s := updateAt fontIdx (fun o => { o with location := (x - 1/4, y - 1/4, 3/10) }) s
  -- lines 150-158: create the collection label ++ "_led", link it under the
  -- scene, and link both objects into it (through the reference to the
  -- freshly created collection)
  let s := { s with
    collections := s.collections ++
      [({ name := label ++ "_led", objects := [ledName x y z, fontName x y z] } : Collection)],
    sceneChildren := s.sceneChildren ++ [label ++ "_led"] }
  -- line 161: object.select_all(DESELECT)
  { s with objects := s.objects.map deselect }

/-- The marker cylinder as `draw_object` leaves it: renamed, bound to the
marker material, extruded by the edit-mode sequence (cylinder and label are
both in multi-object edit mode), deselected at return. -/
def ledFinal (x y z : ℚ) (mat : String) : Obj :=
  { name := ledName x y z, isMesh := true, body := none, selected := false,
    location := (x, y, z), dimensions := (1, 1, 1/2), materials := [mat],
    extruded := some (0, 0, 3/10), color := (1, 1, 1, 1), inRoot := true }

/-- The label object as `draw_object` leaves it: the text object carrying the
label glyphs, converted to a mesh, extruded by `(0, 0, 0.3)`, tinted black,
bound to the label material, resized to `(0.5, 0.5, 0.3)` and placed at
`(x - 0.25, y - 0.25, 0.3)`, deselected at return. -/
def fontFinal (x y z : ℚ) (label texmat : String) : Obj :=
  { name := fontName x y z, isMesh := true, body := some label, selected := false,
    location := (x - 1/4, y - 1/4, 3/10), dimensions := (1/2, 1/2, 3/10),
    materials := [texmat], extruded := some (0, 0, 3/10), color := (0, 0, 0, 1),
    inRoot := true }

/-- The coordinate table of the script (lines 173-191). -/
def states_dict : List (String × ℚ × ℚ × ℚ) :=
  [("AL", 14.0, -1.0, 0.0), ("AK", -3.0, -25.0, 0.0), ("AZ", -25.5, 1.0, 0.0),
   ("AR", 5.5, 1.0, 0.0), ("CA", -37.5, 13.0, 0.0), ("CO", -13.0, 11.0, 0.0),
   ("CT", 32.0, 18.5, 0.0), ("DE", 29.5, 13.0, 0.0), ("FL", 19.0, -6.0, 0.0),
   ("GA", 18.0, 0.0, 0.0), ("HI", -35.0, -25.0, 0.0), ("ID", -28.0, 21.0, 0.0),
   ("IL", 9.0, 11.0, 0.0), ("IN", 14.0, 11.5, 0.0), ("IA", 3.0, 14.0, 0.0),
   ("KS", 0.0, 9.0, 0.0), ("KY", 16.0, 9.0, 0.0), ("LA", 8.0, -7.0, 0.0),
   ("ME", 35.0, 24.0, 0.0), ("MD", 28.0, 13.0, 0.0), ("MA", 34.0, 20.5, 0.0),
   ("MI", 16.0, 17.0, 0.0), ("MN", 4.0, 21.0, 0.0), ("MS", 9.0, -3.0, 0.0),
   ("MO", 5.5, 8.5, 0.0), ("MT", -21.0, 25.5, 0.0), ("NE", -1.0, 16.0, 0.0),
   ("NV", -35.0, 14.0, 0.0), ("NH", 33.0, 22.0, 0.0), ("NJ", 30.0, 15.0, 0.0),
   ("NM", -15.5, 3.5, 0.0), ("NY", 30.0, 20.0, 0.0), ("NC", 26.0, 5.5, 0.0),
   ("ND", -6.5, 24.0, 0.0), ("OH", 18.5, 12.0, 0.0), ("OK", -2.5, 2.5, 0.0),
   ("OR", -36.0, 25.5, 0.0), ("PA", 23.0, 14.0, 0.0), ("RI", 34.0, 19.0, 0.0),
   ("SC", 23.0, 2.0, 0.0), ("SD", -10.0, 19.0, 0.0), ("TN", 14.0, 4.5, 0.0),
   ("TX", -3.0, -7.5, 0.0), ("UT", -23.0, 14.0, 0.0), ("VT", 31.0, 23.0, 0.0),
   ("VA", 27.0, 9.0, 0.0), ("WA", -34.0, 30.0, 0.0), ("WV", 21.0, 9.5, 0.0),
   ("WI", 9.0, 17.0, 0.0), ("WY", -13.0, 14.0, 0.0)]

/-- One iteration of the `__main__` loop (lines 201-219): build the white
emissive LED material (`r = g = b = 255`, `intensity = 1`, key
`LEDShader_255_255_255`), build the black diffuse text material (key
`TextShader_0_0_0`), and compose the marker.  A `TypeError` raised by
`new_shader` propagates (carried by `Except.error`). -/
def run_entry (state : String) (x y z : ℚ) (s : BState) : Except BState BState :=
  match new_shader "LEDShader_255_255_255" "emissive" 255 255 255 (some 1) s with
  | Except.error t => Except.error t
  | Except.ok s1 =>
    match new_shader "TextShader_0_0_0" "diffuse" 0 0 0 none s1 with
    | Except.error t => Except.error t
    | Except.ok s2 =>
      Except.ok (draw_object x y z "LEDShader_255_255_255" state "TextShader_0_0_0" s2)

/-- The `__main__` block (lines 193-219): `load_us_map(90, image_path)` once,
then the marker loop over the dataset.  `init_blender_env` is not called
anywhere in the block.  `img` models the outcome of the file-system check for
`image_path` and `planeName` the name of the imported plane; `entries` is the
dataset (`states_dict` in the actual run). -/
def run_driver (img : Option (Nat × Nat)) (planeName : String)
    (entries : List (String × ℚ × ℚ × ℚ)) (s : BState) : Except BState BState :=
  let s1 := load_us_map 90 img planeName s
  entries.foldlM (fun t e => run_entry e.1 e.2.1 e.2.2.1 e.2.2.2 t) s1

/-- The components whose invocations by the Run Driver the temporal claims
talk about. -/
inductive DriverEvent where
  | sceneReset
  | baseSurfaceLoad
  | markerCompose (label : String)
deriving DecidableEq

/-- The sequence of component calls made by the `__main__` block
(lines 193-219): one `load_us_map` call, then one `draw_object` call per
dataset entry.  `init_blender_env` appears nowhere in the block, so no
`sceneReset` event is ever emitted. -/
def run_driver_calls (entries : List (String × ℚ × ℚ × ℚ)) : List DriverEvent :=
  DriverEvent.baseSurfaceLoad :: entries.map (fun e => DriverEvent.markerCompose e.1)

/-! Helper lemmas about the embedding. -/

lemma listUpdate_at_len (f : Obj → Obj) (A B : List Obj) (a : Obj) (i : Nat)
    (h : i = A.length) : listUpdate f i (A ++ a :: B) = A ++ f a :: B := by
  subst h
  induction A with
  | nil => rfl
  | cons x xs ih => simpa [listUpdate] using ih

lemma listUpdate_at_len_succ (f : Obj → Obj) (A B : List Obj) (a b : Obj) (i : Nat)
    (h : i = A.length + 1) : listUpdate f i (A ++ a :: b :: B) = A ++ a :: f b :: B := by
  have h2 : i = (A ++ [a]).length := by simp [h]
  have := listUpdate_at_len f (A ++ [a]) B b i h2
  simpa using this

/-- The net effect of one `draw_object` call on the state: every pre-existing
object is merely deselected, the marker cylinder and label object are
appended in their final form, the new collection holding exactly those two is
appended and linked under the scene, and nothing else changes. -/
lemma draw_object_spec (x y z : ℚ) (mat label texmat : String) (s : BState) :
    draw_object x y z mat label texmat s =
      { objects := s.objects.map deselect ++ [ledFinal x y z mat, fontFinal x y z label texmat],
        activeObject := some s.objects.length,
        collections := s.collections ++
          [{ name := label ++ "_led", objects := [ledName x y z, fontName x y z] }],
        sceneChildren := s.sceneChildren ++ [label ++ "_led"],
        materials := s.materials,
        addonEnabled := s.addonEnabled } := by
  simp only [draw_object, new_text, updateAt, cylObj]
  simp [listUpdate_at_len, listUpdate_at_len_succ, List.map_append, List.length_map,
        List.length_append, deselect, ledFinal, fontFinal, fontName]

lemma load_us_map_some (D : ℚ) (w h : Nat) (nm : String) (s : BState) :
    load_us_map D (some (w, h)) nm s =
      { s with addonEnabled := true,
               objects := s.objects.map deselect ++ [planeObj D w h nm],
               activeObject := some s.objects.length } := rfl

lemma find?_map_update (l : List Material) (id : String) (f : Material → Material)
    (hf : ∀ m, (f m).name = m.name) :
    (l.map fun m => if m.name == id then f m else m).find? (fun m => m.name == id)
      = (l.find? fun m => m.name == id).map f := by
  induction l with
  | nil => rfl
  | cons m t ih =>
    by_cases h : (m.name == id) = true
    · simp [List.find?, h, hf]
    · simp only [List.map_cons, List.find?]
      rw [if_neg (by simpa using h)]
      simp only [h, ih]

lemma matByName_updateMat (id : String) (f : Material → Material) (s : BState)
    (hf : ∀ m, (f m).name = m.name) :
    matByName (updateMat id f s) id = (matByName s id).map f := by
  simp only [matByName, updateMat]
  exact find?_map_update s.materials id f hf

lemma find?_append_left_none (l1 l2 : List Material) (p : Material → Bool)
    (h : l1.find? p = none) : (l1 ++ l2).find? p = l2.find? p := by
  induction l1 with
  | nil => rfl
  | cons a t ih =>
    cases hpa : p a with
    | true => simp [List.find?, hpa] at h
    | false =>
      simp only [List.find?, hpa] at h
      simpa [List.find?, hpa] using ih h

lemma matByName_new_material (id : String) (s : BState) :
    matByName (new_material id s) id =
      some { name := id, useNodes := true, nodes := [], links := [] } := by
  unfold new_material matByName
  by_cases h : (s.materials.any fun m => m.name == id) = true
  · rw [if_pos h]
    show (s.materials.map fun m => if m.name == id then clearMat m else m).find?
        (fun m => m.name == id) = _
    rw [find?_map_update s.materials id clearMat (fun m => rfl)]
    cases hf : s.materials.find? (fun m => m.name == id) with
    | none =>
      rw [List.find?_eq_none] at hf
      obtain ⟨m0, hmem, hp⟩ := List.any_eq_true.mp h
      exact absurd hp (by simpa using hf m0 hmem)
    | some m1 =>
      have hp := List.find?_some hf
      have hname : m1.name = id := by simpa using hp
      simp [clearMat, hname]
  · rw [if_neg h]
    show (s.materials ++ [({ name := id, useNodes := true, nodes := [], links := [] } : Material)]).find?
        (fun m => m.name == id) = _
    have hnone : s.materials.find? (fun m => m.name == id) = none := by
      rw [List.find?_eq_none]
      intro m hm hpm
      exact h (List.any_eq_true.mpr ⟨m, hm, hpm⟩)
    rw [find?_append_left_none _ _ _ hnone]
    simp [List.find?]

lemma new_shader_emissive (id : String) (r g b : ℚ) (i : Option ℚ) (s : BState) :
    new_shader id "emissive" r g b i s =
      Except.ok (updateMat id (fun m => { m with links := m.links ++ [wireLink "Emission"] })
        (updateMat id (fun m => { m with nodes := m.nodes ++ [emissionNode r g b i] })
          (updateMat id (fun m => { m with nodes := m.nodes ++ [outputNode] })
            (new_material id s)))) := rfl

lemma new_shader_diffuse (id : String) (r g b : ℚ) (i : Option ℚ) (s : BState) :
    new_shader id "diffuse" r g b i s =
      Except.ok (updateMat id (fun m => { m with links := m.links ++ [wireLink "Diffuse BSDF"] })
        (updateMat id (fun m => { m with nodes := m.nodes ++ [diffuseNode r g b] })
          (updateMat id (fun m => { m with nodes := m.nodes ++ [outputNode] })
            (new_material id s)))) := rfl

lemma new_shader_invalid (id kind : String) (r g b : ℚ) (i : Option ℚ) (s : BState)
    (h1 : kind ≠ "emissive") (h2 : kind ≠ "diffuse") :
    new_shader id kind r g b i s =
      Except.error (updateMat id (fun m => { m with nodes := m.nodes ++ [outputNode] })
        (new_material id s)) := by
  simp [new_shader, h1, h2]

lemma matByName_shaderCall_emissive (id : String) (r g b : ℚ) (i : Option ℚ) (s : BState) :
    matByName (shaderCall id "emissive" r g b i s) id =
      some { name := id, useNodes := true, nodes := [outputNode, emissionNode r g b i],
             links := [wireLink "Emission"] } := by
  have h1 : shaderCall id "emissive" r g b i s =
      updateMat id (fun m => { m with links := m.links ++ [wireLink "Emission"] })
        (updateMat id (fun m => { m with nodes := m.nodes ++ [emissionNode r g b i] })
          (updateMat id (fun m => { m with nodes := m.nodes ++ [outputNode] })
            (new_material id s))) := rfl
  rw [h1, matByName_updateMat, matByName_updateMat, matByName_updateMat,
      matByName_new_material]
  · rfl
  all_goals exact fun m => rfl

lemma matByName_shaderCall_diffuse (id : String) (r g b : ℚ) (i : Option ℚ) (s : BState) :
    matByName (shaderCall id "diffuse" r g b i s) id =
      some { name := id, useNodes := true, nodes := [outputNode, diffuseNode r g b],
             links := [wireLink "Diffuse BSDF"] } := by
  have h1 : shaderCall id "diffuse" r g b i s =
      updateMat id (fun m => { m with links := m.links ++ [wireLink "Diffuse BSDF"] })
        (updateMat id (fun m => { m with nodes := m.nodes ++ [diffuseNode r g b] })
          (updateMat id (fun m => { m with nodes := m.nodes ++ [outputNode] })
            (new_material id s))) := rfl
  rw [h1, matByName_updateMat, matByName_updateMat, matByName_updateMat,
      matByName_new_material]
  · rfl
  all_goals exact fun m => rfl

lemma matByName_shaderCall_invalid (id kind : String) (r g b : ℚ) (i : Option ℚ) (s : BState)
    (h1 : kind ≠ "emissive") (h2 : kind ≠ "diffuse") :
    matByName (shaderCall id kind r g b i s) id =
      some { name := id, useNodes := true, nodes := [outputNode], links := [] } := by
  have he : shaderCall id kind r g b i s =
      updateMat id (fun m => { m with nodes := m.nodes ++ [outputNode] })
        (new_material id s) := by
    unfold shaderCall
    rw [new_shader_invalid id kind r g b i s h1 h2]
  rw [he, matByName_updateMat, matByName_new_material]
  · rfl
  all_goals exact fun m => rfl

lemma new_material_collections (id : String) (s : BState) :
    (new_material id s).collections = s.collections := by
  unfold new_material
  split <;> rfl

lemma updateMat_collections (id : String) (f : Material → Material) (s : BState) :
    (updateMat id f s).collections = s.collections := rfl

lemma run_entry_eq (st : String) (x y z : ℚ) (s : BState) :
    ∃ t, run_entry st x y z s = Except.ok t ∧
      t.collections = s.collections ++
        [{ name := st ++ "_led", objects := [ledName x y z, fontName x y z] }] := by
  have h1 : run_entry st x y z s = Except.ok (draw_object x y z "LEDShader_255_255_255" st
      "TextShader_0_0_0" (shaderCall "TextShader_0_0_0" "diffuse" 0 0 0 none
        (shaderCall "LEDShader_255_255_255" "emissive" 255 255 255 (some 1) s))) := rfl
  refine ⟨_, h1, ?_⟩
  rw [draw_object_spec]
  simp [shaderCall, new_shader_emissive, new_shader_diffuse, updateMat_collections,
        new_material_collections]

lemma run_fold_ok (entries : List (String × ℚ × ℚ × ℚ)) :
    ∀ s : BState, ∃ t,
      (entries.foldlM (fun u e => run_entry e.1 e.2.1 e.2.2.1 e.2.2.2 u) s) = Except.ok t ∧
      t.collections.length = s.collections.length + entries.length := by
  induction entries with
  | nil => exact fun s => ⟨s, rfl, by simp⟩
  | cons e es ih =>
    intro s
    obtain ⟨t1, h1, hl1⟩ := run_entry_eq e.1 e.2.1 e.2.2.1 e.2.2.2 s
    obtain ⟨t2, h2, hl2⟩ := ih t1
    refine ⟨t2, ?_, ?_⟩
    · rw [List.foldlM_cons, h1]
      exact h2
    · rw [hl2, hl1]
      simp [List.length_append]
      omega

lemma draw_object_new_objects (x y z : ℚ) (mat label texmat : String) (s : BState) :
    (draw_object x y z mat label texmat s).objects.drop s.objects.length =
      [ledFinal x y z mat, fontFinal x y z label texmat] := by
  rw [draw_object_spec]
  show (s.objects.map deselect ++ [ledFinal x y z mat, fontFinal x y z label texmat]).drop
      s.objects.length = _
  rw [show s.objects.length = (s.objects.map deselect).length from (s.objects.length_map deselect).symm]
  exact List.drop_left _ _

/-! The claims. -/

/-- C1, counterexample: in the actual run of the `__main__` block over the
`states_dict` dataset, the Base Surface Loader is invoked although Scene
Reset never runs in that session (no `sceneReset` event occurs anywhere in
the call sequence), so the claimed ordering guarantee is violated. -/
theorem C1_counterexample :
    DriverEvent.baseSurfaceLoad ∈ run_driver_calls states_dict ∧
    DriverEvent.sceneReset ∉ run_driver_calls states_dict := by
  decide

/-- C1, amended: in every run of the Run Driver, Scene Reset is never invoked
at all; the Base Surface Loader executes first, before any Marker Composer
call. -/
theorem C1_driver_never_resets (entries : List (String × ℚ × ℚ × ℚ)) :
    run_driver_calls entries =
      DriverEvent.baseSurfaceLoad :: entries.map (fun e => DriverEvent.markerCompose e.1) ∧
    DriverEvent.sceneReset ∉ run_driver_calls entries := by
  refine ⟨rfl, ?_⟩
  simp [run_driver_calls]

/-- C2, counterexample: calling the Shader-Graph Factory with
`kind="specular"` from a fresh session does raise the fatal `TypeError`, but
the material store at the moment of the abort is not as if the call had not
happened: the material under the key has been created (and its graph holds
the freshly created output node). -/
theorem C2_counterexample :
    isError (new_shader "K" "specular" 1 0 0 none initState) = true ∧
    (shaderCall "K" "specular" 1 0 0 none initState).materials ≠ initState.materials := by
  decide

/-- C2, amended: for every key, color shade, and kind outside
{emissive, diffuse}, the Shader-Graph Factory raises a fatal `TypeError`; at
the moment it aborts the material under that key exists with node shading
enabled, its previous graph cleared, exactly one node (the output node), no
shader node and no links — so no wired shader graph is visible to later
steps, but the material store is not left as if the call had not happened. -/
theorem C2_invalid_kind_abort_state (id kind : String) (r g b : ℚ)
    (i : Option ℚ) (s : BState) (h1 : kind ≠ "emissive") (h2 : kind ≠ "diffuse") :
    isError (new_shader id kind r g b i s) = true ∧
    matByName (shaderCall id kind r g b i s) id =
      some { name := id, useNodes := true, nodes := [outputNode], links := [] } := by
  constructor
  · rw [new_shader_invalid id kind r g b i s h1 h2]
    rfl
  · exact matByName_shaderCall_invalid id kind r g b i s h1 h2

/-- C2, witness: the amended statement evaluated at `kind = "specular"` on a
fresh session. -/
theorem C2_witness :
    ("specular" : String) ≠ "emissive" ∧ ("specular" : String) ≠ "diffuse" ∧
    (isError (new_shader "K" "specular" 1 0 0 none initState) = true ∧
     matByName (shaderCall "K" "specular" 1 0 0 none initState) "K" =
       some { name := "K", useNodes := true, nodes := [outputNode], links := [] }) :=
  ⟨by decide, by decide,
   C2_invalid_kind_abort_state "K" "specular" 1 0 0 none initState
     (by decide) (by decide)⟩

/-- C3, counterexample: after one concrete marker composition, it is false
that only the label object was touched by the select-all-and-extrude
sequence: an object that is not the label (the marker cylinder, which is
still selected and is the active object when edit mode is entered) also ends
up extruded. -/
theorem C3_counterexample :
    ¬ (((draw_object 1 2 0 "m" "AL" "t" initState).objects.all
        fun o => o.name == fontName 1 2 0 || o.extruded == none) = true) := by
  decide

/-- C3, amended: the object returned as the LabelObject is the text object
converted to a polygonal mesh and extruded by exactly `(0, 0, 0.3)`, leaving
it a solid extruded glyph block — but the edit-mode select-all-and-extrude
sequence is not scoped to the label alone: the cylinder marker (selected
since its creation and the active object) is in multi-object edit mode too
and is extruded by the same amount. -/
theorem C3_label_extruded_marker_too (x y z : ℚ) (mat label texmat : String) (s : BState) :
    (draw_object x y z mat label texmat s).objects.drop s.objects.length =
      [ledFinal x y z mat, fontFinal x y z label texmat] :=
  draw_object_new_objects x y z mat label texmat s

/-- C4, counterexample: the Base Surface Loader does not leave the selection
state clean: after a successful import, the imported surface is still
selected when the loader returns. -/
theorem C4_counterexample :
    ¬ (((load_us_map 90 (some (2000, 1000)) "us_map" initState).objects.all
        fun o => !o.selected) = true) := by
  decide

/-- C4, amended: Scene Reset and the Marker Composer do leave the selection
state fully deselected before returning (Scene Reset by deleting every
object, the Marker Composer by its final deselect-all), but the Base Surface
Loader, on a successful import, returns with the imported surface still
selected. -/
theorem C4_selection_state (s1 s2 s3 : BState) (x y z D : ℚ) (m l t nm : String)
    (w h : Nat) :
    ((init_blender_env s1).objects.all fun o => !o.selected) = true ∧
    ((draw_object x y z m l t s2).objects.all fun o => !o.selected) = true ∧
    ((load_us_map D (some (w, h)) nm s3).objects.getLast?).map (fun o => o.selected)
      = some true := by
  refine ⟨rfl, ?_, ?_⟩
  · rw [draw_object_spec]
    show ((s2.objects.map deselect ++ [ledFinal x y z m, fontFinal x y z l t]).all
        fun o => !o.selected) = true
    rw [List.all_append]
    simp [deselect, ledFinal, fontFinal]
  · rw [load_us_map_some]
    show ((s3.objects.map deselect ++ [planeObj D w h nm]).getLast?).map
        (fun o => o.selected) = some true
    rw [List.getLast?_concat]
    rfl

/-- C5: for every existing image of pixel size `(w, h)` with `w > 0` and every
positive `max_size_dim` `D`, the Base Surface Loader produces a surface of 3D
size exactly `(D, D*h/w, 0)` located at the world origin. -/
theorem C5_surface_size (D : ℚ) (w h : Nat) (nm : String) (s : BState)
    (hw : 0 < w) (hD : 0 < D) :
    ∃ p, (load_us_map D (some (w, h)) nm s).objects.getLast? = some p ∧
      p.dimensions = (D, D * (h : ℚ) / (w : ℚ), 0) ∧ p.location = (0, 0, 0) := by
  refine ⟨planeObj D w h nm, ?_, ?_, rfl⟩
  · rw [load_us_map_some]
    show (s.objects.map deselect ++ [planeObj D w h nm]).getLast? = _
    exact List.getLast?_concat _
  · simp [planeObj, mul_div_assoc]

/-- C5, witness: a 2000 x 1000 image with `max_size_dim = 90` yields the
surface size `(90, 45, 0)` at the origin. -/
theorem C5_witness :
    0 < 2000 ∧ (0 : ℚ) < 90 ∧
    (∃ p, (load_us_map 90 (some (2000, 1000)) "us_map" initState).objects.getLast? = some p ∧
      p.dimensions = (90, 90 * ((1000 : Nat) : ℚ) / ((2000 : Nat) : ℚ), 0) ∧
      p.location = (0, 0, 0)) :=
  ⟨by decide, by norm_num,
   C5_surface_size 90 2000 1000 "us_map" initState (by decide) (by norm_num)⟩

/-- C6: for a path that does not resolve to an existing image, the Base
Surface Loader performs zero scene mutations (only the add-on flag of the
host environment is set; it prints a not-found message, which is outside the
scene state), and the condition is non-fatal: the driver run over any dataset
still completes normally, executing every Marker Composer call (one new
Group per entry). -/
theorem C6_missing_image_nonfatal :
    (∀ (D : ℚ) (nm : String) (s : BState),
      load_us_map D none nm s = { s with addonEnabled := true }) ∧
    (∀ (nm : String) (entries : List (String × ℚ × ℚ × ℚ)) (s : BState),
      ∃ t, run_driver none nm entries s = Except.ok t ∧
        t.collections.length = s.collections.length + entries.length) := by
  refine ⟨fun D nm s => rfl, fun nm entries s => ?_⟩
  obtain ⟨t, ht, hl⟩ := run_fold_ok entries { s with addonEnabled := true }
  exact ⟨t, ht, by simpa using hl⟩

/-- C7: for every valid kind (emissive or diffuse) and any repetition count,
calling the Shader-Graph Factory `n + 1` times with the same key leaves the
material graph under that key with exactly one output node and exactly one
shader node: each call rebuilds the graph instead of accumulating nodes. -/
theorem C7_shader_graph_shape (id kind : String) (r g b : ℚ) (i : Option ℚ)
    (s : BState) (n : Nat) (h : kind = "emissive" ∨ kind = "diffuse") :
    ∃ m, matByName (Nat.iterate (shaderCall id kind r g b i) (n + 1) s) id = some m ∧
      (m.nodes.countP fun nd => nd.ntype == NodeType.outputMaterial) = 1 ∧
      (m.nodes.countP fun nd =>
        nd.ntype == NodeType.emission || nd.ntype == NodeType.diffuseBSDF) = 1 := by
  rw [Function.iterate_succ_apply']
  rcases h with h | h <;> subst h
  · exact ⟨_, matByName_shaderCall_emissive id r g b i _, rfl, rfl⟩
  · exact ⟨_, matByName_shaderCall_diffuse id r g b i _, rfl, rfl⟩

/-- C7, witness: two emissive calls under the key `K` leave one output node
and one shader node. -/
theorem C7_witness :
    (("emissive" : String) = "emissive" ∨ ("emissive" : String) = "diffuse") ∧
    (∃ m, matByName (Nat.iterate (shaderCall "K" "emissive" 1 0 0 (some 1)) 2 initState) "K"
        = some m ∧
      (m.nodes.countP fun nd => nd.ntype == NodeType.outputMaterial) = 1 ∧
      (m.nodes.countP fun nd =>
        nd.ntype == NodeType.emission || nd.ntype == NodeType.diffuseBSDF) = 1) :=
  ⟨Or.inl rfl, C7_shader_graph_shape "K" "emissive" 1 0 0 (some 1) initState 1 (Or.inl rfl)⟩

/-- C8: for every label whose Group name does not collide with an existing
collection, one Marker Composer call appends exactly one new Group, named
`label ++ "_led"`, containing exactly the two objects created in the same
call (the marker cylinder and the label object, in that order). -/
theorem C8_group_contents (x y z : ℚ) (m label t : String) (s : BState)
    (h : (s.collections.all fun c => !(c.name == label ++ "_led")) = true) :
    (draw_object x y z m label t s).collections =
      s.collections ++
        [{ name := label ++ "_led", objects := [ledName x y z, fontName x y z] }] ∧
    ((draw_object x y z m label t s).objects.drop s.objects.length).map (fun o => o.name)
      = [ledName x y z, fontName x y z] := by
  constructor
  · rw [draw_object_spec]
  · rw [draw_object_new_objects x y z m label t s]
    rfl

/-- C8, witness: the `AL` marker at `(14, -1, 0)` from a fresh scene. -/
theorem C8_witness :
    ((initState.collections.all fun c => !(c.name == "AL" ++ "_led")) = true) ∧
    ((draw_object 14 (-1) 0 "m" "AL" "t" initState).collections =
      initState.collections ++
        [{ name := "AL" ++ "_led", objects := [ledName 14 (-1) 0, fontName 14 (-1) 0] }] ∧
     ((draw_object 14 (-1) 0 "m" "AL" "t" initState).objects.drop
        initState.objects.length).map (fun o => o.name)
       = [ledName 14 (-1) 0, fontName 14 (-1) 0]) :=
  ⟨by decide, C8_group_contents 14 (-1) 0 "m" "AL" "t" initState (by decide)⟩

/-- C9: the Base Surface Loader toggles the image-import add-on
unconditionally, before and independently of the image-path existence check:
after any call the add-on is enabled, and a call with a non-existent path
changes exactly the add-on flag of the host environment (so plugin state can
change even though no scene mutation happens). -/
theorem C9_addon_toggle_unconditional (D : ℚ) (img : Option (Nat × Nat)) (nm : String)
    (s : BState) :
    (load_us_map D img nm s).addonEnabled = true ∧
    load_us_map D none nm s = { s with addonEnabled := true } := by
  refine ⟨?_, rfl⟩
  cases img with
  | none => rfl
  | some wh => rfl

/-- C10: after a Marker Composer call, the marker object and the label object
are each linked to the scene root collection and are both members of the
newly created Group, so each of the two objects belongs to two containers. -/
theorem C10_objects_in_root_and_group (x y z : ℚ) (m label t : String) (s : BState) :
    (∃ o, o ∈ (draw_object x y z m label t s).objects ∧
      o.name = ledName x y z ∧ o.inRoot = true) ∧
    (∃ o, o ∈ (draw_object x y z m label t s).objects ∧
      o.name = fontName x y z ∧ o.inRoot = true) ∧
    (draw_object x y z m label t s).collections.getLast? =
      some { name := label ++ "_led", objects := [ledName x y z, fontName x y z] } := by
  refine ⟨⟨ledFinal x y z m, ?_, rfl, rfl⟩, ⟨fontFinal x y z label t, ?_, rfl, rfl⟩, ?_⟩
  · rw [draw_object_spec]
    simp
  · rw [draw_object_spec]
    simp
  · rw [draw_object_spec]
    show (s.collections ++
      [({ name := label ++ "_led", objects := [ledName x y z, fontName x y z] } : Collection)]).getLast?
        = _
    exact List.getLast?_concat _
